import Mathlib

/-!
# Verification of the manufacturing-co dashboard frontend

Shallow embedding of the TypeScript dashboard code (API client, chat panel,
polling history accumulators, status badge mappings) together with theorems
settling the specification claims.  JavaScript numbers are modelled as `ℚ`,
JS strings as `String`, optional / nullable fields as `Option`, and fallible
asynchronous calls as explicit outcome values.
-/

/-- The characters removed by `String.prototype.trim`: the ECMAScript
WhiteSpace set (TAB, VT, FF, SP, NBSP, ZWNBSP and the Unicode
space-separator category Zs) together with the LineTerminator set
(LF, CR, LS, PS). -/
def isJsWhitespace (c : Char) : Bool :=
  c = '\t' || c = '\n' || c = '\x0b' || c = '\x0c' || c = '\r' || c = ' ' ||
  c = '\u00a0' || c = '\u1680' ||
  c = '\u2000' || c = '\u2001' || c = '\u2002' || c = '\u2003' || c = '\u2004' ||
  c = '\u2005' || c = '\u2006' || c = '\u2007' || c = '\u2008' || c = '\u2009' ||
  c = '\u200a' || c = '\u2028' || c = '\u2029' || c = '\u202f' || c = '\u205f' ||
  c = '\u3000' || c = '\ufeff'

/-- Embedding of JavaScript `s.trim()`: drop the ECMAScript whitespace and
line-terminator characters from both ends. -/
def jsTrim (s : String) : String :=
  ⟨((s.data.dropWhile isJsWhitespace).reverse.dropWhile isJsWhitespace).reverse⟩

/-- Embedding of JavaScript `l.slice(-n)` for `n > 0`: the last `min n l.length`
elements of `l`. -/
def jsSliceLast (n : Nat) (l : List α) : List α :=
  l.drop (l.length - n)

/-! ## Data model (src/web/app/interfaces.ts) -/

/-- `Topic` DTO. -/
structure Topic where
  name : String
  partitions : ℚ
  replication : Option ℚ
deriving DecidableEq, Repr

/-- `Table` DTO. -/
structure Table where
  name : String
  namespaceName : String
  schema : Option String
deriving DecidableEq, Repr

/-- `Bucket` DTO. -/
structure Bucket where
  name : String
deriving DecidableEq, Repr

/-- `LayerReadiness.details`: optional boolean flags for bucket/topic/table. -/
structure LayerDetails where
  bucket : Option Bool
  topic : Option Bool
  table : Option Bool
deriving DecidableEq, Repr

/-- `LayerReadiness` DTO: status is `'ready' | 'missing'`, modelled as a
string. -/
structure LayerReadiness where
  status : String
  details : LayerDetails
deriving DecidableEq, Repr

/-- The `readiness` object of `DashboardData`. -/
structure MedallionReadiness where
  bronze : LayerReadiness
  silver : LayerReadiness
  gold : LayerReadiness
deriving DecidableEq, Repr

/-- `DashboardData` DTO. -/
structure DashboardData where
  configured : Bool
  topics : List Topic
  tables : List Table
  buckets : List Bucket
  readiness : Option MedallionReadiness
  error : Option String
deriving DecidableEq, Repr

/-- `DetailedTopicMetrics` DTO. -/
structure DetailedTopicMetrics where
  topic : String
  total_messages : ℚ
  in_queue : ℚ
  processed : ℚ
  invalidated_count : Option ℚ
  latest_message_timestamp : Option String
  last_processed_timestamp : Option String
  lag_seconds : ℚ
  processing_rate : ℚ
  queue_depth_percent : ℚ
deriving DecidableEq, Repr

/-- `TelemetryRecord` DTO; the index-signature fields of the TypeScript
interface are modelled as an association list of extra string fields. -/
structure TelemetryRecord where
  device_id : String
  temperature : ℚ
  timestamp : String
  extra : List (String × String)
deriving DecidableEq, Repr

/-- `KpiRecord` DTO. -/
structure KpiRecord where
  total_events : ℚ
  avg_temp : ℚ
  anomaly_count : ℚ
  window_start : Option String
  window_end : Option String
deriving DecidableEq, Repr

/-- `ServiceDetail` DTO; `auth_status` is a nullable string union, modelled as
`Option String`. -/
structure ServiceDetail where
  port : ℚ
  description : String
  protocol : String
  tcp_available : Bool
  https_available : Bool
  auth_status : Option String
  error : Option String
  status_code : Option ℚ
deriving DecidableEq, Repr

/-! ## API client (src/lib/api.ts) -/

/-- The fixed API base used by the client (`const API_BASE = '/api'`). -/
def API_BASE : String := "/api"

/-- A JSON response body, as far as `handleResponse` inspects it: an optional
`message` string field plus the remaining fields, which it never reads. -/
structure JsonBody where
  message : Option String
  otherFields : List (String × String)
deriving DecidableEq, Repr

/-- An HTTP `Response` as consumed by `handleResponse`: the `ok` flag, the
numeric status, the status text, and the result of parsing the body as JSON
(`none` when the body is not valid JSON, in which case `res.json()` rejects). -/
structure Response where
  ok : Bool
  status : Nat
  statusText : String
  jsonBody : Option JsonBody
deriving DecidableEq, Repr

/-- Outcome of `handleResponse`: the parsed body, an `Error` thrown with a
message, or the rejection of `res.json()` on the `ok` path (a `SyntaxError`
raised by the JSON parser, not an `Error` constructed by `handleResponse`). -/
inductive FetchOutcome (α : Type) where
  | success (body : α)
  | thrown (msg : String)
  | parseError
deriving DecidableEq, Repr

/-- Embedding of `handleResponse` (src/lib/api.ts).  On `res.ok` it returns the
parsed JSON body.  Otherwise it parses the body with a fallback of
`{ message: res.statusText }` when parsing fails, and throws an `Error` whose
message is `error.message || ` the generic failure message; JavaScript `||`
treats both a missing `message` field and the empty string as falsy. -/
def handleResponse (res : Response) : FetchOutcome JsonBody :=
  if res.ok then
    match res.jsonBody with
    | some b => .success b
    | none => .parseError
  else
    let error : JsonBody := res.jsonBody.getD { message := some res.statusText, otherFields := [] }
    .thrown (match error.message with
      | some m => if m = "" then "API request failed with status " ++ toString res.status else m
      | none => "API request failed with status " ++ toString res.status)

/-- Specification-side definition, following the claim's words: the error
message carried is the response body's `message` field when the body parses as
JSON and contains a (non-empty) one, and otherwise falls back to the status
text (when the body is not JSON and the status text is non-empty) or a generic
failure message containing the status code. -/
def claimedErrorMessage (res : Response) : String :=
  match res.jsonBody with
  | some b =>
    match b.message with
    | some m => if m = "" then "API request failed with status " ++ toString res.status else m
    | none => "API request failed with status " ++ toString res.status
  | none =>
    if res.statusText = "" then "API request failed with status " ++ toString res.status
    else res.statusText

/-- The resource-browsing type union `'Topics' | 'Tables' | 'Buckets'`. -/
inductive ResourceType where
  | Topics
  | Tables
  | Buckets
deriving DecidableEq, Repr

/-- URL computed by `api.getResourceDetails` for a resource type and name. -/
def getResourceDetailsUrl (type : ResourceType) (name : String) : String :=
  match type with
  | .Buckets => API_BASE ++ "/buckets/" ++ name ++ "/objects"
  | .Topics => API_BASE ++ "/topics/" ++ name ++ "/metrics"
  | .Tables => API_BASE ++ "/tables/" ++ name ++ "/data"

/-- An HTTP request issued by the API client: method and path. -/
structure HttpRequest where
  method : String
  path : String
deriving DecidableEq, Repr

/-- Request issued by `api.getDashboardData`. -/
def getDashboardDataRequest : HttpRequest :=
  { method := "GET", path := API_BASE ++ "/dashboard/data" }

/-- Request issued by `api.bootstrap`. -/
def bootstrapRequest : HttpRequest :=
  { method := "POST", path := API_BASE ++ "/profile/bootstrap" }

/-- Request issued by `api.runScenario`. -/
def runScenarioRequest : HttpRequest :=
  { method := "POST", path := API_BASE ++ "/profile/scenarios/run" }

/-- Request issued by `api.proxyLLMChat`. -/
def proxyLLMChatRequest : HttpRequest :=
  { method := "POST", path := API_BASE ++ "/llm/chat" }

/-! ## Processing lag badge (src/frontend/app/components/ProcessingStatus.tsx) -/

/-- The status record returned by `getLagStatus`. -/
structure LagStatus where
  icon : String
  color : String
  bgColor : String
  borderColor : String
  label : String
deriving DecidableEq, Repr

/-- Embedding of `getLagStatus`. -/
def getLagStatus (lag : ℚ) : LagStatus :=
  if lag < 5 then
    { icon := "✅"
      color := "text-green-600 dark:text-green-400"
      bgColor := "bg-green-50 dark:bg-green-900/20"
      borderColor := "border-green-200 dark:border-green-800"
      label := "Real-time" }
  else if lag < 30 then
    { icon := "⚠️"
      color := "text-amber-600 dark:text-amber-400"
      bgColor := "bg-amber-50 dark:bg-amber-900/20"
      borderColor := "border-amber-200 dark:border-amber-800"
      label := "Minor delay" }
  else
    { icon := "🔴"
      color := "text-red-600 dark:text-red-400"
      bgColor := "bg-red-50 dark:bg-red-900/20"
      borderColor := "border-red-200 dark:border-red-800"
      label := "Significant lag" }

/-! ## Data-flow visualization percentages (DataFlowVisualization) -/

/-- `processedPercent` in `DataFlowVisualization`. -/
def processedPercent (generated processed : ℚ) : ℚ :=
  if generated > 0 then processed / generated * 100 else 0

/-- `queuedPercent` in `DataFlowVisualization`. -/
def queuedPercent (generated inQueue : ℚ) : ℚ :=
  if generated > 0 then inQueue / generated * 100 else 0

/-! ## Admin page service badge (AdminPage services.map) -/

/-- Badge text rendered for a discovered service. -/
def serviceBadgeLabel (s : ServiceDetail) : String :=
  if s.auth_status = some "success" then "Available"
  else if s.tcp_available then "Reachable"
  else "Unavailable"

/-- Indicator dot colour class rendered for a discovered service. -/
def serviceIndicatorColor (s : ServiceDetail) : String :=
  if s.auth_status = some "success" then "bg-emerald-500"
  else if s.tcp_available then "bg-amber-500"
  else "bg-destructive"

/-! ## Chat panel (ChatPanel component) -/

/-- Chat message roles used by the panel and the OpenAI-compatible payload. -/
inductive ChatRole where
  | system
  | user
  | assistant
deriving DecidableEq, Repr

/-- A plain role/content pair, the message shape of the posted request body
(`messages.map(m => ({ role: m.role, content: m.content }))`). -/
structure RoleContent where
  role : ChatRole
  content : String
deriving DecidableEq, Repr

/-- `LLMConfig`: base URL, API token and model, as saved by the settings
modal. -/
structure LLMConfig where
  baseUrl : String
  apiToken : String
  model : String
deriving DecidableEq, Repr

/-- The slice of the `bronze_layer` context built from `detailedMetrics`. -/
structure BronzeLayerContext where
  topic : String
  total_messages : ℚ
  lag_seconds : ℚ
  processing_rate : ℚ
deriving DecidableEq, Repr

/-- The `context` object embedded into the system prompt by `handleSend`:
dashboard counts and readiness, the optional bronze-layer metrics, and the
`last_5_records` slices of the silver and gold records. -/
structure ChatContext where
  topics : Nat
  tables : Nat
  buckets : Nat
  readiness : Option MedallionReadiness
  bronze_layer : Option BronzeLayerContext
  silver_last5 : List TelemetryRecord
  gold_last5 : List KpiRecord
deriving DecidableEq, Repr

/-- Builds the `context` object of `handleSend`: `dashboardData?.topics?.length
|| 0` and friends, `detailedMetrics ? {...} : null`, and
`lastProcessedRecords.slice(0, 5)` / `lastGoldRecords.slice(0, 5)`. -/
def mkChatContext (dashboardData : Option DashboardData)
    (detailedMetrics : Option DetailedTopicMetrics)
    (lastProcessedRecords : List TelemetryRecord)
    (lastGoldRecords : List KpiRecord) : ChatContext :=
  { topics := (dashboardData.map (fun d => d.topics.length)).getD 0
    tables := (dashboardData.map (fun d => d.tables.length)).getD 0
    buckets := (dashboardData.map (fun d => d.buckets.length)).getD 0
    readiness := dashboardData.bind (fun d => d.readiness)
    bronze_layer := detailedMetrics.map (fun m =>
      { topic := m.topic
        total_messages := m.total_messages
        lag_seconds := m.lag_seconds
        processing_rate := m.processing_rate })
    silver_last5 := lastProcessedRecords.take 5
    gold_last5 := lastGoldRecords.take 5 }

/-- Serialization stand-in for `JSON.stringify(context, null, 2)`: a concrete
textual rendering of the context.  The claims about the chat request depend on
which data is embedded, not on the exact serialization text. -/
def renderChatContext (ctx : ChatContext) : String :=
  toString (repr ctx)

/-- The system prompt template of `handleSend`, instantiated with the rendered
context. -/
def systemPrompt (ctx : ChatContext) : String :=
  "You are a data engineering assistant for a manufacturing company. \n" ++
  "Current system state:\n" ++ renderChatContext ctx ++
  "\n\nHelp the user understand the current scenario, data quality, and pipeline status."

/-- The OpenAI-compatible request body posted to the LLM proxy. -/
structure RequestBody where
  model : String
  messages : List RoleContent
deriving DecidableEq, Repr

/-- The message object inside a choice of the proxy's response. -/
structure LLMChoiceMessage where
  role : String
  content : String
deriving DecidableEq, Repr

/-- One choice of the proxy's response. -/
structure LLMChoice where
  message : LLMChoiceMessage
deriving DecidableEq, Repr

/-- The proxy's response, as far as `handleSend` inspects it:
`data.choices[0].message.content`. -/
structure LLMResponse where
  choices : List LLMChoice
deriving DecidableEq, Repr

/-- The debug info attached to an assistant message on success. -/
structure DebugInfo where
  request : RequestBody
  response : LLMResponse
deriving DecidableEq, Repr

/-- `ChatMessage`: role, content, and the optional debug info. -/
structure ChatMessage where
  role : ChatRole
  content : String
  debugInfo : Option DebugInfo
deriving DecidableEq, Repr

/-- The component state touched by `handleSend`: the message list, the input
field, and the loading flag. -/
structure ChatState where
  messages : List ChatMessage
  input : String
  isLoading : Bool
deriving DecidableEq, Repr

/-- A value thrown inside the `try` block of `handleSend`: either an `Error`
carrying a message (`error instanceof Error`) or any other thrown value. -/
inductive JsThrown where
  | error (msg : String)
  | nonError
deriving DecidableEq, Repr

/-- `error instanceof Error ? error.message : 'Unknown error'`. -/
def thrownMessage : JsThrown → String
  | .error m => m
  | .nonError => "Unknown error"

/-- Builds the `requestBody` of `handleSend`: the configured model, then one
system message embedding the context, the prior chat messages stripped to
role/content in their existing order, and the current input as the final user
message. -/
def buildRequestBody (config : LLMConfig) (dashboardData : Option DashboardData)
    (detailedMetrics : Option DetailedTopicMetrics)
    (lastProcessedRecords : List TelemetryRecord) (lastGoldRecords : List KpiRecord)
    (messages : List ChatMessage) (currentInput : String) : RequestBody :=
  { model := config.model
    messages :=
      { role := .system
        content := systemPrompt
          (mkChatContext dashboardData detailedMetrics lastProcessedRecords lastGoldRecords) } ::
      messages.map (fun m => { role := m.role, content := m.content }) ++
      [{ role := .user, content := currentInput }] }

/-- The payload `handleSend` posts to the LLM proxy (wrapped by
`api.proxyLLMChat` into `{ base_url, api_token, payload }`): `none` when the
guard `!input.trim() || isLoading` suppresses the send. -/
def postedChatBody (config : LLMConfig) (dashboardData : Option DashboardData)
    (detailedMetrics : Option DetailedTopicMetrics)
    (lastProcessedRecords : List TelemetryRecord) (lastGoldRecords : List KpiRecord)
    (st : ChatState) : Option RequestBody :=
  if jsTrim st.input = "" ∨ st.isLoading then none
  else some (buildRequestBody config dashboardData detailedMetrics lastProcessedRecords
    lastGoldRecords st.messages st.input)

/-- Embedding of `handleSend`.  The external proxy call is modelled by the
`outcome` oracle: `Except.error t` when `api.proxyLLMChat` rejects with the
thrown value `t`, `Except.ok data` when it resolves with `data`.  When `data`
resolves but `data.choices` is empty, reading `data.choices[0].message` throws
a `TypeError` inside the same `try`, which the `catch` turns into an error
message like any other failure.  The returned state is the state after the
`finally` block has run. -/
def handleSend (config : LLMConfig) (dashboardData : Option DashboardData)
    (detailedMetrics : Option DetailedTopicMetrics)
    (lastProcessedRecords : List TelemetryRecord) (lastGoldRecords : List KpiRecord)
    (outcome : Except JsThrown LLMResponse) (st : ChatState) : ChatState :=
  if jsTrim st.input = "" ∨ st.isLoading then st
  else
    let userMessage : ChatMessage := { role := .user, content := st.input, debugInfo := none }
    let requestBody := buildRequestBody config dashboardData detailedMetrics
      lastProcessedRecords lastGoldRecords st.messages st.input
    match outcome with
    | .ok data =>
      match data.choices with
      | c :: _ =>
        { messages := st.messages ++ [userMessage,
            { role := .assistant
              content := c.message.content
              debugInfo := some { request := requestBody, response := data } }]
          input := ""
          isLoading := false }
      | [] =>
        { messages := st.messages ++ [userMessage,
            { role := .assistant
              content := "Error: Cannot read properties of undefined (reading 'message')" ++
                ". Please check your configuration and API token."
              debugInfo := none }]
          input := ""
          isLoading := false }
    | .error t =>
      { messages := st.messages ++ [userMessage,
          { role := .assistant
            content := "Error: " ++ thrownMessage t ++
              ". Please check your configuration and API token."
            debugInfo := none }]
        input := ""
        isLoading := false }

/-! ## Polling history accumulators (src/web/app/page.tsx, topicMetrics query) -/

/-- One entry of `bronzeHistory`, as built in the `detailedMetrics` effect. -/
structure BronzeEntry where
  time : String
  ingestion : ℚ
  processed : ℚ
  invalidated_count : Option ℚ
  lag : ℚ
  queueDepth : ℚ
deriving DecidableEq, Repr

/-- The `newEntry` built by the bronze-history effect from the polled
`detailedMetrics` and the formatted current time. -/
def mkBronzeEntry (time : String) (m : DetailedTopicMetrics) : BronzeEntry :=
  { time := time
    ingestion := m.total_messages
    processed := m.processed
    invalidated_count := m.invalidated_count
    lag := m.lag_seconds
    queueDepth := m.queue_depth_percent }

/-- The `setBronzeHistory` updater: keep `prev` when its last entry agrees with
the new entry on `ingestion`, `processed` and `lag`; otherwise append and keep
the last 30 entries (`slice(-30)`). -/
def updateBronzeHistory (prev : List BronzeEntry) (newEntry : BronzeEntry) : List BronzeEntry :=
  match prev.getLast? with
  | some last =>
    if last.ingestion = newEntry.ingestion ∧ last.processed = newEntry.processed ∧
        last.lag = newEntry.lag then prev
    else jsSliceLast 30 (prev ++ [newEntry])
  | none => jsSliceLast 30 (prev ++ [newEntry])

/-- The silver-history effect: when the fetched record list is non-empty, keep
`prev` when the timestamp of its last element equals the timestamp of the
first fetched record (`latest = lastProcessedRecords[0]`); otherwise append the
whole fetched list and keep the last 50 entries (`slice(-50)`). -/
def updateSilverHistory (prev fetched : List TelemetryRecord) : List TelemetryRecord :=
  match fetched with
  | [] => prev
  | latest :: _ =>
    match prev.getLast? with
    | some last =>
      if last.timestamp = latest.timestamp then prev
      else jsSliceLast 50 (prev ++ fetched)
    | none => jsSliceLast 50 (prev ++ fetched)

/-- The gold-history effect: as the silver one, but the last element of `prev`
is compared with the first fetched record by `JSON.stringify` equality, which
on these plain records coincides with structural equality. -/
def updateGoldHistory (prev fetched : List KpiRecord) : List KpiRecord :=
  match fetched with
  | [] => prev
  | latest :: _ =>
    match prev.getLast? with
    | some last =>
      if last = latest then prev
      else jsSliceLast 50 (prev ++ fetched)
    | none => jsSliceLast 50 (prev ++ fetched)

/-- A value of `recent_message: string | object | null` (`null` is modelled by
`Option`).  JavaScript `===` compares strings by value but objects by
reference, so an object value carries a reference-identity token: JSON parsing
allocates a fresh object on every poll, hence objects from two different polls
are never `===`, even when structurally identical. -/
inductive RecentMessage where
  | str (s : String)
  | obj (ref : Nat)
deriving DecidableEq, Repr

/-- JS truthiness of a `recent_message` value (`if (data.recent_message)`):
the empty string is falsy, every other string and every object is truthy. -/
def jsTruthy : RecentMessage → Bool
  | .str s => s ≠ ""
  | .obj _ => true

/-- The `messageHistory` update inside the `topicMetrics` query function:
when `data.recent_message` is truthy, prepend it and keep the first 5 entries
unless it already occurs in the history (`prev.some(m => m === recent)`,
embedded as membership, which on `RecentMessage` is string value equality or
object reference identity). -/
def updateMessageHistory (prev : List RecentMessage) (recent : Option RecentMessage) :
    List RecentMessage :=
  match recent with
  | none => prev
  | some m =>
    if jsTruthy m then
      if prev.contains m then prev
      else (m :: prev).take 5
    else prev

/-! ## Helper lemmas -/

/-- `slice(-n)` returns at most `n` elements. -/
theorem length_jsSliceLast (n : Nat) (l : List α) : (jsSliceLast n l).length ≤ n := by
  simp [jsSliceLast]
  omega

/-- For positive `n`, `slice(-n)` of a list ending in `a` still ends in `a`. -/
theorem getLast?_jsSliceLast_concat (n : Nat) (hn : 0 < n) (l : List α) (a : α) :
    (jsSliceLast n (l ++ [a])).getLast? = some a := by
  unfold jsSliceLast
  rw [List.drop_append_of_le_length (by simp; omega)]
  simp

/-- Membership in `slice(-n)` implies membership in the original list. -/
theorem mem_of_mem_jsSliceLast {n : Nat} {l : List α} {x : α}
    (h : x ∈ jsSliceLast n l) : x ∈ l :=
  List.mem_of_mem_drop h

/-- Histories built by folding an updater that either keeps the previous list
or takes `slice(-n)` of something stay within `n` entries. -/
theorem foldl_length_le {α β : Type} (f : List α → β → List α) (n : Nat)
    (hf : ∀ prev b, f prev b = prev ∨ ∃ l, f prev b = jsSliceLast n l) :
    ∀ (es : List β) (prev : List α), prev.length ≤ n → (es.foldl f prev).length ≤ n := by
  intro es
  induction es with
  | nil => intro prev h; simpa using h
  | cons e es ih =>
    intro prev h
    rw [List.foldl_cons]
    apply ih
    rcases hf prev e with heq | ⟨l, heq⟩
    · rw [heq]; exact h
    · rw [heq]; exact length_jsSliceLast n l

/-- Histories built by folding an updater that only keeps previous entries or
entries of the supplied batch contain only entries coming from some batch. -/
theorem foldl_mem_batches {α : Type} (f : List α → List α → List α)
    (hf : ∀ prev b x, x ∈ f prev b → x ∈ prev ∨ x ∈ b) :
    ∀ (batches : List (List α)) (prev : List α) (x : α),
      x ∈ List.foldl f prev batches → x ∈ prev ∨ ∃ b ∈ batches, x ∈ b := by
  intro batches
  induction batches with
  | nil => intro prev x h; exact Or.inl (by simpa using h)
  | cons b bs ih =>
    intro prev x h
    rw [List.foldl_cons] at h
    rcases ih (f prev b) x h with hmem | ⟨b', hb', hx⟩
    · rcases hf prev b x hmem with h' | h'
      · exact Or.inl h'
      · exact Or.inr ⟨b, List.mem_cons_self b bs, h'⟩
    · exact Or.inr ⟨b', List.mem_cons_of_mem b hb', hx⟩

/-! ## Claim theorems -/

/-- C7: `getLagStatus` returns the `Real-time` status exactly when the lag is
below 5, the `Minor delay` status exactly when the lag is at least 5 and below
30, and the `Significant lag` status exactly when the lag is at least 30; the
function is total over all rational lag inputs. -/
theorem getLagStatus_label_spec (lag : ℚ) :
    ((getLagStatus lag).label = "Real-time" ↔ lag < 5)
    ∧ ((getLagStatus lag).label = "Minor delay" ↔ 5 ≤ lag ∧ lag < 30)
    ∧ ((getLagStatus lag).label = "Significant lag" ↔ 30 ≤ lag) := by
  unfold getLagStatus
  split_ifs with h5 h30
  · refine ⟨by simpa using h5, ?_, ?_⟩
    · simp only [String.reduceEq, false_iff]
      rintro ⟨h, -⟩
      linarith
    · simp only [String.reduceEq, false_iff]
      intro h
      linarith
  · refine ⟨by simpa using h5, ?_, ?_⟩
    · simp only [true_iff]
      exact ⟨le_of_not_lt h5, h30⟩
    · simp only [String.reduceEq, false_iff]
      intro h
      linarith
  · refine ⟨by simpa using h5, ?_, ?_⟩
    · simp only [String.reduceEq, false_iff]
      rintro ⟨-, h⟩
      exact h30 h
    · simp only [true_iff]
      exact le_of_not_lt h30

/-- C10: the percentage computation of `DataFlowVisualization` divides by
`generated` only when `generated` is positive and yields 0 when `generated`
is 0, so it is total and never divides by zero. -/
theorem dataFlowPercent_spec (generated processed inQueue : ℚ)
    (_hg : 0 ≤ generated) (_hp : 0 ≤ processed) (_hq : 0 ≤ inQueue) :
    (generated > 0 →
      processedPercent generated processed = processed / generated * 100 ∧
      queuedPercent generated inQueue = inQueue / generated * 100)
    ∧ (generated = 0 →
      processedPercent generated processed = 0 ∧ queuedPercent generated inQueue = 0) := by
  constructor
  · intro h
    simp [processedPercent, queuedPercent, h]
  · intro h
    simp [processedPercent, queuedPercent, h]

/-- Witness for C10 at `generated = 4`, `processed = 2`, `inQueue = 1`. -/
theorem dataFlowPercent_spec_witness :
    (0:ℚ) ≤ 4 ∧ (0:ℚ) ≤ 2 ∧ (0:ℚ) ≤ 1 ∧
    ((4:ℚ) > 0 →
      processedPercent 4 2 = 2 / 4 * 100 ∧ queuedPercent 4 1 = 1 / 4 * 100) :=
  ⟨by norm_num, by norm_num, by norm_num,
    (dataFlowPercent_spec 4 2 1 (by norm_num) (by norm_num) (by norm_num)).1⟩

/-- C6: the admin page labels a discovered service `Available` exactly when
`auth_status` is `success`, `Reachable` exactly when authentication did not
succeed but TCP is available, and `Unavailable` otherwise, and the indicator
colour follows the same three-way partition. -/
theorem serviceBadge_spec (s : ServiceDetail) :
    (serviceBadgeLabel s = "Available" ↔ s.auth_status = some "success")
    ∧ (serviceBadgeLabel s = "Reachable" ↔
        s.auth_status ≠ some "success" ∧ s.tcp_available = true)
    ∧ (serviceBadgeLabel s = "Unavailable" ↔
        s.auth_status ≠ some "success" ∧ s.tcp_available = false)
    ∧ (serviceIndicatorColor s = "bg-emerald-500" ↔ serviceBadgeLabel s = "Available")
    ∧ (serviceIndicatorColor s = "bg-amber-500" ↔ serviceBadgeLabel s = "Reachable")
    ∧ (serviceIndicatorColor s = "bg-destructive" ↔ serviceBadgeLabel s = "Unavailable") := by
  unfold serviceBadgeLabel serviceIndicatorColor
  by_cases h : s.auth_status = some "success" <;>
    cases htcp : s.tcp_available <;>
      simp [h, htcp]

/-- C4: the API client targets exactly the spec's REST paths under the fixed
`/api` base: buckets to `/buckets/{name}/objects`, topics to
`/topics/{name}/metrics`, tables to `/tables/{name}/data`, dashboard data to
`/dashboard/data`, bootstrap to POST `/profile/bootstrap`, scenarios to POST
`/profile/scenarios/run`, and the LLM proxy to POST `/llm/chat`. -/
theorem api_paths_spec (name : String) :
    getResourceDetailsUrl ResourceType.Buckets name = "/api/buckets/" ++ name ++ "/objects"
    ∧ getResourceDetailsUrl ResourceType.Topics name = "/api/topics/" ++ name ++ "/metrics"
    ∧ getResourceDetailsUrl ResourceType.Tables name = "/api/tables/" ++ name ++ "/data"
    ∧ getDashboardDataRequest = { method := "GET", path := "/api/dashboard/data" }
    ∧ bootstrapRequest = { method := "POST", path := "/api/profile/bootstrap" }
    ∧ runScenarioRequest = { method := "POST", path := "/api/profile/scenarios/run" }
    ∧ proxyLLMChatRequest = { method := "POST", path := "/api/llm/chat" } :=
  ⟨rfl, rfl, rfl, rfl, rfl, rfl, rfl⟩

/-- C3: `handleResponse` returns the parsed JSON body exactly when the
response is ok (and the body parses), throws an `Error` exactly when the
response is not ok, and the thrown message is the body's `message` field when
present and non-empty, falling back to the status text or a generic message
containing the status code. -/
theorem handleResponse_spec (res : Response) :
    (∀ b, handleResponse res = FetchOutcome.success b ↔
      (res.ok = true ∧ res.jsonBody = some b))
    ∧ ((∃ m, handleResponse res = FetchOutcome.thrown m) ↔ res.ok = false)
    ∧ (res.ok = false →
      handleResponse res = FetchOutcome.thrown (claimedErrorMessage res)) := by
  cases hok : res.ok <;> cases hb : res.jsonBody <;>
    simp [handleResponse, claimedErrorMessage, hok, hb]

/-- Witness for C3 at a concrete 503 response with a JSON error body. -/
theorem handleResponse_spec_witness :
    (Response.mk false 503 "Service Unavailable"
        (some { message := some "backend down", otherFields := [] })).ok = false
    ∧ handleResponse (Response.mk false 503 "Service Unavailable"
        (some { message := some "backend down", otherFields := [] })) =
      FetchOutcome.thrown (claimedErrorMessage (Response.mk false 503 "Service Unavailable"
        (some { message := some "backend down", otherFields := [] }))) :=
  ⟨rfl, (handleResponse_spec _).2.2 rfl⟩

/-- More membership-provenance: folding an updater that only keeps previous
entries or the pushed entry itself yields entries from the pushed sequence. -/
theorem foldl_mem_entries {α : Type} (f : List α → α → List α)
    (hf : ∀ prev b x, x ∈ f prev b → x ∈ prev ∨ x = b) :
    ∀ (es : List α) (prev : List α) (x : α),
      x ∈ List.foldl f prev es → x ∈ prev ∨ x ∈ es := by
  intro es
  induction es with
  | nil => intro prev x h; exact Or.inl (by simpa using h)
  | cons e es ih =>
    intro prev x h
    rw [List.foldl_cons] at h
    rcases ih (f prev e) x h with hmem | hmem
    · rcases hf prev e x hmem with h' | h'
      · exact Or.inl h'
      · exact Or.inr (h' ▸ List.mem_cons_self e es)
    · exact Or.inr (List.mem_cons_of_mem e hmem)

/-- Counterexample to C1: refetching the identical two-record silver result
set grows the history, because the dedup check compares the history's last
element against the fetch's first element. -/
theorem silverDedup_counterexample :
    updateSilverHistory
      (updateSilverHistory []
        [⟨"d1", 1, "t1", []⟩, ⟨"d1", 2, "t2", []⟩])
      [⟨"d1", 1, "t1", []⟩, ⟨"d1", 2, "t2", []⟩] ≠
    updateSilverHistory []
      [⟨"d1", 1, "t1", []⟩, ⟨"d1", 2, "t2", []⟩] := by
  decide

/-- C1 amended: refetching an unchanged result set leaves the history
unchanged only in restricted cases.  The recent-message history is unchanged
exactly when the refetched message is falsy or still occurs in the current
5-entry window — in particular for a string message repeated on consecutive
polls — while a string message already evicted from the window is re-added,
and an object message is never deduplicated across polls because each poll
parses a fresh object reference, which is appended whenever it is not already
in the window.  The silver and gold histories are left unchanged on an
identical refetch whenever the fetched result set is a single record (their
dedup check compares the history's last element with the fetch's first, so
multi-record identical refetches may grow the history). -/
theorem historyDedup_amended :
    (∀ (prev : List RecentMessage) (m : RecentMessage),
      updateMessageHistory prev (some m) = prev ↔ (jsTruthy m = false ∨ m ∈ prev))
    ∧ (∀ (prev : List RecentMessage) (ref : Nat),
      RecentMessage.obj ref ∉ prev →
        updateMessageHistory prev (some (RecentMessage.obj ref)) =
          (RecentMessage.obj ref :: prev).take 5)
    ∧ (∀ (prev : List TelemetryRecord) (r : TelemetryRecord),
      updateSilverHistory (updateSilverHistory prev [r]) [r] =
        updateSilverHistory prev [r])
    ∧ (∀ (prev : List KpiRecord) (k : KpiRecord),
      updateGoldHistory (updateGoldHistory prev [k]) [k] =
        updateGoldHistory prev [k]) := by
  refine ⟨?_, ?_, ?_, ?_⟩
  · intro prev m
    by_cases htruthy : jsTruthy m = true
    · by_cases hc : m ∈ prev
      · simp [updateMessageHistory, htruthy, hc]
      · simp [updateMessageHistory, htruthy, hc]
        intro heq
        exact hc (heq ▸ List.mem_cons_self m (prev.take 4))
    · simp [updateMessageHistory, htruthy]
  · intro prev ref hmem
    simp [updateMessageHistory, jsTruthy, hmem]
  · intro prev r
    cases hl : prev.getLast? with
    | none =>
      have hprev : prev = [] := by simpa using hl
      subst hprev
      simp [updateSilverHistory, jsSliceLast]
    | some last =>
      by_cases ht : last.timestamp = r.timestamp
      · simp [updateSilverHistory, hl, ht]
      · have hL : (jsSliceLast 50 (prev ++ [r])).getLast? = some r :=
          getLast?_jsSliceLast_concat 50 (by norm_num) prev r
        simp [updateSilverHistory, hl, ht, hL]
  · intro prev k
    cases hl : prev.getLast? with
    | none =>
      have hprev : prev = [] := by simpa using hl
      subst hprev
      simp [updateGoldHistory, jsSliceLast]
    | some last =>
      by_cases ht : last = k
      · simp [updateGoldHistory, hl, ht]
      · have hL : (jsSliceLast 50 (prev ++ [k])).getLast? = some k :=
          getLast?_jsSliceLast_concat 50 (by norm_num) prev k
        simp [updateGoldHistory, hl, ht, hL]

/-- Witness for C1's amended theorem: a fresh object reference outside the
window is appended rather than deduplicated. -/
theorem historyDedup_amended_witness :
    RecentMessage.obj 0 ∉ ([] : List RecentMessage) ∧
    updateMessageHistory [] (some (RecentMessage.obj 0)) =
      (RecentMessage.obj 0 :: ([] : List RecentMessage)).take 5 :=
  ⟨by decide, historyDedup_amended.2.1 [] 0 (by decide)⟩

/-- Counterexample to C2: a silver record fetched on one poll is still present
in the silver history after the next poll (with different data) completes, so
fetched records do persist in client state across polling cycles. -/
theorem silverPersistence_counterexample :
    (⟨"d1", 1, "t1", []⟩ : TelemetryRecord) ∈
      updateSilverHistory (updateSilverHistory [] [⟨"d1", 1, "t1", []⟩])
        [⟨"d2", 2, "t2", []⟩]
    ∧ (⟨"d1", 1, "t1", []⟩ : TelemetryRecord) ∉
        ([⟨"d2", 2, "t2", []⟩] : List TelemetryRecord) := by
  decide

/-- C2 amended: the per-poll query results are replaced on each poll, but
records copied into the history accumulators persist across later polls;
what does hold is provenance: every record in a history accumulator
originates from some fetched batch (and every bronze entry from some pushed
metrics snapshot). -/
theorem historyProvenance_spec :
    (∀ (batches : List (List TelemetryRecord)) (x : TelemetryRecord),
      x ∈ List.foldl updateSilverHistory [] batches → ∃ b ∈ batches, x ∈ b)
    ∧ (∀ (batches : List (List KpiRecord)) (x : KpiRecord),
      x ∈ List.foldl updateGoldHistory [] batches → ∃ b ∈ batches, x ∈ b)
    ∧ (∀ (es : List BronzeEntry) (e : BronzeEntry),
      e ∈ List.foldl updateBronzeHistory [] es → e ∈ es) := by
  refine ⟨?_, ?_, ?_⟩
  · intro batches x hx
    have step : ∀ (prev b : List TelemetryRecord) (y : TelemetryRecord),
        y ∈ updateSilverHistory prev b → y ∈ prev ∨ y ∈ b := by
      intro prev b y hy
      unfold updateSilverHistory at hy
      split at hy
      · exact Or.inl hy
      · split at hy
        · split at hy
          · exact Or.inl hy
          · exact List.mem_append.mp (mem_of_mem_jsSliceLast hy)
        · exact List.mem_append.mp (mem_of_mem_jsSliceLast hy)
    rcases foldl_mem_batches updateSilverHistory step batches [] x hx with h | h
    · simp at h
    · exact h
  · intro batches x hx
    have step : ∀ (prev b : List KpiRecord) (y : KpiRecord),
        y ∈ updateGoldHistory prev b → y ∈ prev ∨ y ∈ b := by
      intro prev b y hy
      unfold updateGoldHistory at hy
      split at hy
      · exact Or.inl hy
      · split at hy
        · split at hy
          · exact Or.inl hy
          · exact List.mem_append.mp (mem_of_mem_jsSliceLast hy)
        · exact List.mem_append.mp (mem_of_mem_jsSliceLast hy)
    rcases foldl_mem_batches updateGoldHistory step batches [] x hx with h | h
    · simp at h
    · exact h
  · intro es e he
    have step : ∀ (prev : List BronzeEntry) (b e' : BronzeEntry),
        e' ∈ updateBronzeHistory prev b → e' ∈ prev ∨ e' = b := by
      intro prev b e' he'
      unfold updateBronzeHistory at he'
      split at he'
      · split at he'
        · exact Or.inl he'
        · rcases List.mem_append.mp (mem_of_mem_jsSliceLast he') with h | h
          · exact Or.inl h
          · exact Or.inr (by simpa using h)
      · rcases List.mem_append.mp (mem_of_mem_jsSliceLast he') with h | h
        · exact Or.inl h
        · exact Or.inr (by simpa using h)
    rcases foldl_mem_entries updateBronzeHistory step es [] e he with h | h
    · simp at h
    · exact h

/-- Witness for C2's amended provenance theorem at a one-batch history. -/
theorem historyProvenance_spec_witness :
    (⟨"d1", 1, "t1", []⟩ : TelemetryRecord) ∈
      List.foldl updateSilverHistory [] [[⟨"d1", 1, "t1", []⟩]]
    ∧ ∃ b ∈ [[(⟨"d1", 1, "t1", []⟩ : TelemetryRecord)]],
        (⟨"d1", 1, "t1", []⟩ : TelemetryRecord) ∈ b :=
  ⟨by decide,
    historyProvenance_spec.1 [[⟨"d1", 1, "t1", []⟩]] ⟨"d1", 1, "t1", []⟩ (by decide)⟩

/-- C8: starting from the empty histories, after every sequence of polled
updates the bronze history has at most 30 entries and the silver and gold
histories have at most 50 entries each. -/
theorem boundedHistory_spec :
    (∀ es : List BronzeEntry, (es.foldl updateBronzeHistory []).length ≤ 30)
    ∧ (∀ fs : List (List TelemetryRecord), (fs.foldl updateSilverHistory []).length ≤ 50)
    ∧ (∀ fs : List (List KpiRecord), (fs.foldl updateGoldHistory []).length ≤ 50) := by
  refine ⟨?_, ?_, ?_⟩
  · intro es
    refine foldl_length_le updateBronzeHistory 30 ?_ es [] (by simp)
    intro prev b
    unfold updateBronzeHistory
    split
    · split
      · exact Or.inl rfl
      · exact Or.inr ⟨_, rfl⟩
    · exact Or.inr ⟨_, rfl⟩
  · intro fs
    refine foldl_length_le updateSilverHistory 50 ?_ fs [] (by simp)
    intro prev b
    unfold updateSilverHistory
    split
    · exact Or.inl rfl
    · split
      · split
        · exact Or.inl rfl
        · exact Or.inr ⟨_, rfl⟩
      · exact Or.inr ⟨_, rfl⟩
  · intro fs
    refine foldl_length_le updateGoldHistory 50 ?_ fs [] (by simp)
    intro prev b
    unfold updateGoldHistory
    split
    · exact Or.inl rfl
    · split
      · split
        · exact Or.inl rfl
        · exact Or.inr ⟨_, rfl⟩
      · exact Or.inr ⟨_, rfl⟩

/-- C5: for a send with non-blank input while no request is in flight, the
payload posted to the LLM proxy carries the saved configuration's model, and
its messages are one system message embedding the context (dashboard counts
plus at most the first 5 silver records and at most the first 5 gold records)
followed by all prior chat messages in order, with the new user message
last. -/
theorem chatRequestBody_spec (config : LLMConfig) (dashboardData : Option DashboardData)
    (detailedMetrics : Option DetailedTopicMetrics)
    (silver : List TelemetryRecord) (gold : List KpiRecord) (st : ChatState)
    (hInput : jsTrim st.input ≠ "") (hLoading : st.isLoading = false) :
    postedChatBody config dashboardData detailedMetrics silver gold st =
      some { model := config.model
             messages :=
               { role := ChatRole.system
                 content := systemPrompt
                   (mkChatContext dashboardData detailedMetrics silver gold) } ::
               st.messages.map (fun m => { role := m.role, content := m.content }) ++
               [{ role := ChatRole.user, content := st.input }] }
    ∧ (mkChatContext dashboardData detailedMetrics silver gold).silver_last5 = silver.take 5
    ∧ (mkChatContext dashboardData detailedMetrics silver gold).gold_last5 = gold.take 5
    ∧ (mkChatContext dashboardData detailedMetrics silver gold).silver_last5.length ≤ 5
    ∧ (mkChatContext dashboardData detailedMetrics silver gold).gold_last5.length ≤ 5
    ∧ (mkChatContext dashboardData detailedMetrics silver gold).topics =
        (dashboardData.map fun d => d.topics.length).getD 0
    ∧ (mkChatContext dashboardData detailedMetrics silver gold).tables =
        (dashboardData.map fun d => d.tables.length).getD 0
    ∧ (mkChatContext dashboardData detailedMetrics silver gold).buckets =
        (dashboardData.map fun d => d.buckets.length).getD 0 := by
  refine ⟨?_, rfl, rfl, ?_, ?_, rfl, rfl, rfl⟩
  · unfold postedChatBody buildRequestBody
    rw [if_neg (by simp [hInput, hLoading])]
  · simp [mkChatContext]
  · simp [mkChatContext]

/-- Witness for C5 at a concrete non-blank, non-loading chat state. -/
theorem chatRequestBody_spec_witness :
    jsTrim "hello" ≠ "" ∧ (ChatState.mk [] "hello" false).isLoading = false ∧
    (postedChatBody ⟨"https://api.openai.com/v1", "tok", "gpt-4o"⟩ none none [] []
      (ChatState.mk [] "hello" false)).isSome = true := by
  refine ⟨by decide, rfl, ?_⟩
  have h := chatRequestBody_spec ⟨"https://api.openai.com/v1", "tok", "gpt-4o"⟩ none none
    [] [] (ChatState.mk [] "hello" false) (by decide) rfl
  rw [h.1]
  rfl

/-- C9: `handleSend` leaves the state unchanged when the input is blank or a
request is in flight; otherwise it appends exactly one user message carrying
the typed input and exactly one assistant message (the response content on
success, a message beginning with `Error: ` on failure), clears the input and
resets the loading flag. -/
theorem handleSend_spec (config : LLMConfig) (dashboardData : Option DashboardData)
    (detailedMetrics : Option DetailedTopicMetrics)
    (silver : List TelemetryRecord) (gold : List KpiRecord)
    (outcome : Except JsThrown LLMResponse) (st : ChatState) :
    ((jsTrim st.input = "" ∨ st.isLoading = true) →
      handleSend config dashboardData detailedMetrics silver gold outcome st = st)
    ∧ (jsTrim st.input ≠ "" → st.isLoading = false →
      ∃ amsg : ChatMessage,
        (handleSend config dashboardData detailedMetrics silver gold outcome st).messages =
          st.messages ++
            [{ role := ChatRole.user, content := st.input, debugInfo := none }, amsg]
        ∧ amsg.role = ChatRole.assistant
        ∧ (match outcome with
            | Except.ok data =>
              match data.choices with
              | c :: _ => amsg.content = c.message.content
              | [] => ∃ r, amsg.content = "Error: " ++ r
            | Except.error _ => ∃ r, amsg.content = "Error: " ++ r)
        ∧ (handleSend config dashboardData detailedMetrics silver gold outcome st).input = ""
        ∧ (handleSend config dashboardData detailedMetrics silver gold outcome st).isLoading
            = false) := by
  constructor
  · intro h
    unfold handleSend
    rw [if_pos h]
  · intro h1 h2
    have hguard : ¬ (jsTrim st.input = "" ∨ st.isLoading = true) := by
      simp [h1, h2]
    unfold handleSend
    rw [if_neg hguard]
    cases outcome with
    | ok data =>
      cases data with
      | mk choices =>
        cases choices with
        | nil =>
          exact ⟨_, rfl, rfl,
            ⟨"Cannot read properties of undefined (reading 'message')" ++
              ". Please check your configuration and API token.", rfl⟩, rfl, rfl⟩
        | cons c rest =>
          exact ⟨_, rfl, rfl, rfl, rfl, rfl⟩
    | error t =>
      exact ⟨_, rfl, rfl,
        ⟨thrownMessage t ++ ". Please check your configuration and API token.", rfl⟩,
        rfl, rfl⟩

/-- Witness for C9 at a concrete state with a failing proxy call. -/
theorem handleSend_spec_witness :
    jsTrim "hello" ≠ "" ∧ (ChatState.mk [] "hello" false).isLoading = false ∧
    ∃ amsg : ChatMessage,
      (handleSend ⟨"b", "t", "m"⟩ none none [] []
          (Except.error (JsThrown.error "boom")) (ChatState.mk [] "hello" false)).messages =
        (ChatState.mk [] "hello" false).messages ++
          [{ role := ChatRole.user, content := "hello", debugInfo := none }, amsg]
      ∧ amsg.role = ChatRole.assistant
      ∧ (∃ r, amsg.content = "Error: " ++ r)
      ∧ (handleSend ⟨"b", "t", "m"⟩ none none [] []
          (Except.error (JsThrown.error "boom")) (ChatState.mk [] "hello" false)).input = ""
      ∧ (handleSend ⟨"b", "t", "m"⟩ none none [] []
          (Except.error (JsThrown.error "boom")) (ChatState.mk [] "hello" false)).isLoading
          = false :=
  ⟨by decide, rfl,
    (handleSend_spec ⟨"b", "t", "m"⟩ none none [] []
      (Except.error (JsThrown.error "boom")) (ChatState.mk [] "hello" false)).2
      (by decide) rfl⟩
